import Mathlib

/-!
Verification of the establishment query/filter/sort contract and the
dual-backend adapter layer of the commercial-catalog repository.

The embedding models:
  - the entity schema (shared/schema.ts): Establishment and Attachment rows,
    with nullable columns as Option values and timestamps as Nat;
  - the relational query engine (server/storage.ts, DatabaseStorage):
    filter conditions are a list of Boolean predicates mirroring the pushed
    SQL conditions, and ORDER BY is modelled as a stable sort by the chosen
    key, with SQL NULLs sorting first under descending order;
  - the REST route handlers (server/routes.ts) for the creation and deletion
    paths, over an explicit Store state;
  - the client REST adapter (client/src/lib/adapters.ts) with the result of
    the underlying HTTP request passed in as an Except value;
  - the document-store adapter (client/src/lib/firestore.ts): its query
    constraints are modelled over the same row type, a missing field failing
    both equality and range constraints, and orderBy modelled as the same
    stable sort primitive.

String comparison in the stores (text >= thresholds, name ordering) is
modelled as lexicographic comparison of the character lists by code point.
-/

/-! ### Lexicographic string comparison -/

/-- Lexicographic comparison of character lists by code point, weak order. -/
def charLe : List Char → List Char → Bool
  | [], _ => true
  | _ :: _, [] => false
  | a :: as, b :: bs =>
    if a < b then true
    else if b < a then false
    else charLe as bs

/-- The string order used by the backing stores for text columns. -/
def strLe (a b : String) : Bool := charLe a.data b.data

theorem charLe_total (as bs : List Char) : charLe as bs = true ∨ charLe bs as = true := by
  induction as generalizing bs with
  | nil => left; rfl
  | cons a as ih =>
    cases bs with
    | nil => right; rfl
    | cons b bs =>
      by_cases hab : a < b
      · left; simp [charLe, hab]
      · by_cases hba : b < a
        · right; simp [charLe, hba, hab]
        · have h := ih bs
          simp [charLe, hab, hba]
          exact h

theorem charLe_trans {as bs cs : List Char} (h1 : charLe as bs = true)
    (h2 : charLe bs cs = true) : charLe as cs = true := by
  induction as generalizing bs cs with
  | nil => rfl
  | cons a as ih =>
    cases bs with
    | nil => simp [charLe] at h1
    | cons b bs =>
      cases cs with
      | nil => simp [charLe] at h2
      | cons c cs =>
        simp only [charLe] at h1 h2 ⊢
        by_cases hab : a < b
        · by_cases hbc : b < c
          · simp [lt_trans hab hbc]
          · by_cases hcb : c < b
            · simp [hbc, hcb] at h2
            · have hbc' : b = c := le_antisymm (not_lt.mp hcb) (not_lt.mp hbc)
              subst hbc'
              simp [hab]
        · by_cases hba : b < a
          · simp [hab, hba] at h1
          · have hab' : a = b := le_antisymm (not_lt.mp hba) (not_lt.mp hab)
            subst hab'
            simp [hab] at h1
            by_cases hac : a < c
            · simp [hac]
            · by_cases hca : c < a
              · simp [hac, hca] at h2
              · simp [hac, hca] at h2 ⊢
                exact ih h1 h2

theorem charLe_antisymm {as bs : List Char} (h1 : charLe as bs = true)
    (h2 : charLe bs as = true) : as = bs := by
  induction as generalizing bs with
  | nil =>
    cases bs with
    | nil => rfl
    | cons b bs => simp [charLe] at h2
  | cons a as ih =>
    cases bs with
    | nil => simp [charLe] at h1
    | cons b bs =>
      simp only [charLe] at h1 h2
      by_cases hab : a < b
      · simp [hab, lt_asymm hab] at h2
      · by_cases hba : b < a
        · simp [hab, hba] at h1
        · have hab' : a = b := le_antisymm (not_lt.mp hba) (not_lt.mp hab)
          subst hab'
          simp [hab] at h1 h2
          rw [ih h1 h2]

theorem strLe_total (a b : String) : strLe a b = true ∨ strLe b a = true :=
  charLe_total a.data b.data

theorem strLe_trans {a b c : String} (h1 : strLe a b = true) (h2 : strLe b c = true) :
    strLe a c = true :=
  charLe_trans h1 h2

theorem strLe_antisymm {a b : String} (h1 : strLe a b = true) (h2 : strLe b a = true) :
    a = b := by
  cases a with
  | mk as =>
    cases b with
    | mk bs =>
      have h : as = bs := charLe_antisymm h1 h2
      rw [h]

/-! ### Entity schema (shared/schema.ts)

Nullable columns are Option values; the timestamp columns carry a Nat clock
value when set. Serial identifiers are Nat; the integer userId column is Int. -/

/-- A row of the establishments table. The rating and createdAt columns are
nullable (they only carry SQL defaults), hence Option. -/
structure Establishment where
  id : Nat
  name : String
  category : String
  location : String
  description : Option String
  rating : Option String
  coverImage : Option String
  userId : Int
  createdAt : Option Nat
deriving Repr, DecidableEq

/-- A row of the attachments table. -/
structure Attachment where
  id : Nat
  fileName : String
  fileType : String
  fileSize : String
  filePath : String
  establishmentId : Nat
  userId : Int
  uploadDate : Option Nat
deriving Repr, DecidableEq

/-- The seven enumerated rating values of the schema, in source order. -/
def RATING_OPTIONS : List String := ["5", "4.5", "4", "3.5", "3", "2.5", "2"]

/-- The enumerated establishment categories of the schema. -/
def ESTABLISHMENT_CATEGORIES : List String := ["Restaurant", "Retail", "Services", "Entertainment"]

/-- The enumerated location suggestions of the schema. -/
def LOCATION_OPTIONS : List String := ["Downtown", "Uptown", "Midtown", "Suburban"]

/-- The optional filter criteria accepted by getEstablishments. A field that
is none models an undefined query parameter. -/
structure Filters where
  category : Option String
  location : Option String
  rating : Option String
deriving Repr, DecidableEq

/-! ### Sort keys

ORDER BY on a key is modelled as a stable insertion sort with respect to the
corresponding weak order. Descending order on a nullable column puts NULLs
first (the SQL default for descending), so none counts as greatest. -/

/-- Descending weak order on a nullable numeric column, NULLs first. -/
def optNatDesc : Option Nat → Option Nat → Bool
  | none, _ => true
  | some _, none => false
  | some x, some y => decide (y ≤ x)

/-- Descending weak order on a nullable text column, NULLs first. -/
def optStrDesc : Option String → Option String → Bool
  | none, _ => true
  | some _, none => false
  | some x, some y => strLe y x

/-- Establishment order for ORDER BY created_at DESC. -/
def createdDescRel (a b : Establishment) : Prop := optNatDesc a.createdAt b.createdAt = true

/-- Establishment order for ORDER BY rating DESC. -/
def ratingDescRel (a b : Establishment) : Prop := optStrDesc a.rating b.rating = true

/-- Establishment order for ORDER BY name (ascending). -/
def nameAscRel (a b : Establishment) : Prop := strLe a.name b.name = true

/-- Establishment order for ORDER BY name DESC. -/
def nameDescRel (a b : Establishment) : Prop := strLe b.name a.name = true

instance : DecidableRel createdDescRel := fun a b => inferInstanceAs (Decidable (_ = true))

instance : DecidableRel ratingDescRel := fun a b => inferInstanceAs (Decidable (_ = true))

instance : DecidableRel nameAscRel := fun a b => inferInstanceAs (Decidable (_ = true))

instance : DecidableRel nameDescRel := fun a b => inferInstanceAs (Decidable (_ = true))

instance : IsTotal Establishment nameAscRel :=
  ⟨fun a b => strLe_total a.name b.name⟩

instance : IsTrans Establishment nameAscRel :=
  ⟨fun _ _ _ h1 h2 => strLe_trans h1 h2⟩

instance : IsTotal Establishment nameDescRel :=
  ⟨fun a b => strLe_total b.name a.name⟩

instance : IsTrans Establishment nameDescRel :=
  ⟨fun _ _ _ h1 h2 => strLe_trans h2 h1⟩

namespace DB

/-! ### The relational query engine (server/storage.ts, DatabaseStorage)

getEstablishments builds a list of SQL conditions from the filters, then
executes the select with the conjunction of the conditions and the sort
picked from the sortBy label. Equality and >= against a NULL column are
never satisfied, so the condition predicates return false on none. -/

/-- SQL condition eq(establishments.category, c). -/
def categoryEq (c : String) (e : Establishment) : Bool := decide (e.category = c)

/-- SQL condition eq(establishments.location, l). -/
def locationEq (l : String) (e : Establishment) : Bool := decide (e.location = l)

/-- SQL condition eq(establishments.rating, v); NULL never matches. -/
def ratingEq (v : String) (e : Establishment) : Bool :=
  match e.rating with
  | some r => decide (r = v)
  | none => false

/-- SQL condition gte(establishments.rating, t) under the text ordering of
the store; NULL never matches. -/
def ratingGte (t : String) (e : Establishment) : Bool :=
  match e.rating with
  | some r => strLe t r
  | none => false

/-- Conditions pushed for the category filter: a truthy value other than the
sentinel "All categories" requires exact equality. -/
def categoryConditions (c : Option String) : List (Establishment → Bool) :=
  match c with
  | some c => if c ≠ "" ∧ c ≠ "All categories" then [categoryEq c] else []
  | none => []

/-- Conditions pushed for the location filter: a truthy value other than the
sentinel "All locations" requires exact equality. -/
def locationConditions (l : Option String) : List (Establishment → Bool) :=
  match l with
  | some l => if l ≠ "" ∧ l ≠ "All locations" then [locationEq l] else []
  | none => []

/-- Conditions pushed for the rating filter: the three recognized buckets map
to an equality or a text >= condition; any other truthy value, and the
sentinel "All ratings", push nothing. -/
def ratingConditions (r : Option String) : List (Establishment → Bool) :=
  match r with
  | some r =>
    if r ≠ "" ∧ r ≠ "All ratings" then
      if r = "5 stars" then [ratingEq "5"]
      else if r = "4+ stars" then [ratingGte "4"]
      else if r = "3+ stars" then [ratingGte "3"]
      else []
    else []
  | none => []

/-- The full condition list built by getEstablishments, in push order. -/
def conditions (f : Option Filters) : List (Establishment → Bool) :=
  match f with
  | none => []
  | some f =>
    categoryConditions f.category ++ locationConditions f.location ++ ratingConditions f.rating

/-- The ORDER BY applied for a sortBy label: Newest first and the legacy
createdAt label sort by creation time descending, Highest rated by rating
descending, Name A-Z by name ascending, Name Z-A by name descending, and any
other label applies no ordering. -/
def applySort (sortBy : String) (l : List Establishment) : List Establishment :=
  if sortBy = "Newest first" ∨ sortBy = "createdAt" then List.insertionSort createdDescRel l
  else if sortBy = "Highest rated" then List.insertionSort ratingDescRel l
  else if sortBy = "Name A-Z" then List.insertionSort nameAscRel l
  else if sortBy = "Name Z-A" then List.insertionSort nameDescRel l
  else l

/-- DatabaseStorage.getEstablishments over the current table contents: build
the conditions; with no conditions only the sort is applied, otherwise the
rows satisfying every condition are selected and then sorted. -/
def getEstablishments (rows : List Establishment) (f : Option Filters)
    (sortBy : String) : List Establishment :=
  if (conditions f).isEmpty then
    applySort sortBy rows
  else
    applySort sortBy (rows.filter (fun e => (conditions f).all (fun c => c e)))

end DB

namespace Fs

/-! ### The document-store query path (client/src/lib/firestore.ts)

getEstablishments builds the parallel query constraints against the hosted
document store: the same sentinel tests and rating buckets as the relational
engine, where == and >= constraints that a document with a missing field
never satisfies, followed by exactly one orderBy constraint. The sort field
defaults to createdAt with direction desc, and only the four recognized
labels override the default; orderBy is modelled with the same stable sort
primitive as the relational ORDER BY. -/

/-- Constraint where(field category, ==, c). -/
def whereCategoryEq (c : String) (e : Establishment) : Bool := decide (e.category = c)

/-- Constraint where(field location, ==, l). -/
def whereLocationEq (l : String) (e : Establishment) : Bool := decide (e.location = l)

/-- Constraint where(field rating, ==, v); a document missing the field never
matches. -/
def whereRatingEq (v : String) (e : Establishment) : Bool :=
  match e.rating with
  | some r => decide (r = v)
  | none => false

/-- Constraint where(field rating, >=, t) under the lexicographic string
order of the document store; a document missing the field never matches. -/
def whereRatingGte (t : String) (e : Establishment) : Bool :=
  match e.rating with
  | some r => strLe t r
  | none => false

/-- Where-constraints pushed for the category filter. -/
def categoryConstraints (c : Option String) : List (Establishment → Bool) :=
  match c with
  | some c => if c ≠ "" ∧ c ≠ "All categories" then [whereCategoryEq c] else []
  | none => []

/-- Where-constraints pushed for the location filter. -/
def locationConstraints (l : Option String) : List (Establishment → Bool) :=
  match l with
  | some l => if l ≠ "" ∧ l ≠ "All locations" then [whereLocationEq l] else []
  | none => []

/-- Where-constraints pushed for the rating filter: the same three buckets as
the relational engine; any other truthy value pushes nothing. -/
def ratingConstraints (r : Option String) : List (Establishment → Bool) :=
  match r with
  | some r =>
    if r ≠ "" ∧ r ≠ "All ratings" then
      if r = "5 stars" then [whereRatingEq "5"]
      else if r = "4+ stars" then [whereRatingGte "4"]
      else if r = "3+ stars" then [whereRatingGte "3"]
      else []
    else []
  | none => []

/-- The full where-constraint list, in push order. -/
def constraints (f : Option Filters) : List (Establishment → Bool) :=
  match f with
  | none => []
  | some f =>
    categoryConstraints f.category ++ locationConstraints f.location ++ ratingConstraints f.rating

/-- The orderBy constraint: sortField defaults to createdAt and sortOrder to
desc; the four recognized labels override both. Every query carries exactly
one orderBy, so an unrecognized label still orders by createdAt descending. -/
def applyOrderBy (sortBy : String) (l : List Establishment) : List Establishment :=
  if sortBy = "Newest first" then List.insertionSort createdDescRel l
  else if sortBy = "Highest rated" then List.insertionSort ratingDescRel l
  else if sortBy = "Name A-Z" then List.insertionSort nameAscRel l
  else if sortBy = "Name Z-A" then List.insertionSort nameDescRel l
  else List.insertionSort createdDescRel l

/-- firestore getEstablishments over the collection contents: documents
satisfying every where-constraint, ordered by the orderBy constraint. -/
def getEstablishments (docs : List Establishment) (f : Option Filters)
    (sortBy : String) : List Establishment :=
  applyOrderBy sortBy (docs.filter (fun e => (constraints f).all (fun c => c e)))

end Fs

/-! ### Server-side store state (server/storage.ts, server/routes.ts) -/

/-- The contents of the relational store: the establishments and attachments
tables, each in insertion order. -/
structure Store where
  establishments : List Establishment
  attachments : List Attachment
deriving Repr, DecidableEq

namespace DB

/-- storage.getEstablishment: select by primary key, first result or none. -/
def getEstablishmentRow (s : Store) (id : Nat) : Option Establishment :=
  (s.establishments.filter (fun e => e.id == id)).head?

/-- storage.getAttachments: select the attachments of one establishment. -/
def getAttachments (s : Store) (establishmentId : Nat) : List Attachment :=
  s.attachments.filter (fun a => a.establishmentId == establishmentId)

/-- storage.createEstablishment: insert the row and return it; the serial id
newId is assigned by the store. -/
def createEstablishmentRow (s : Store) (row : Establishment) : Establishment × Store :=
  (row, { s with establishments := s.establishments ++ [row] })

/-- storage.createAttachment: insert the row and return it. -/
def createAttachmentRow (s : Store) (row : Attachment) : Attachment × Store :=
  (row, { s with attachments := s.attachments ++ [row] })

/-- storage.deleteAttachment: delete by primary key; true when a row was
deleted. -/
def deleteAttachment (s : Store) (id : Nat) : Bool × Store :=
  (s.attachments.any (fun a => a.id == id),
   { s with attachments := s.attachments.filter (fun a => ! (a.id == id)) })

/-- storage.deleteEstablishment: first delete every attachment of the
establishment, then delete the establishment row; true when an
establishment row was deleted. -/
def deleteEstablishment (s : Store) (id : Nat) : Bool × Store :=
  let afterAttachments : Store :=
    { s with attachments := s.attachments.filter (fun a => ! (a.establishmentId == id)) }
  (afterAttachments.establishments.any (fun e => e.id == id),
   { afterAttachments with
       establishments := afterAttachments.establishments.filter (fun e => ! (e.id == id)) })

end DB

namespace Api

/-! ### REST route handlers (server/routes.ts)

Request bodies reach the handlers as parsed JSON; the userId field is
modelled as the raw JSON value so that the JavaScript truthiness test of the
default userId fallback is faithful. Responses are modelled as the HTTP
status code together with the resulting store state. -/

/-- A raw JSON field value, as far as the userId handling observes it. -/
inductive ReqVal
  | absent
  | null
  | num (n : Int)
  | str (s : String)
deriving Repr, DecidableEq

/-- JavaScript truthiness of a JSON field value (0, null, the empty string
and an absent field are falsy). -/
def truthy : ReqVal → Bool
  | .absent => false
  | .null => false
  | .num n => decide (n ≠ 0)
  | .str s => decide (s ≠ "")

/-- The defaulting applied by the creation routes before validation:
userId: req.body.userId || 1. -/
def defaultedUserId (v : ReqVal) : ReqVal :=
  if truthy v then v else .num 1

/-- Schema validation of the userId field: it must be a number. -/
def parseUserId : ReqVal → Option Int
  | .num n => some n
  | _ => none

/-- The body of POST /api/establishments after the schema checks on every
field other than userId have succeeded. -/
structure EstBody where
  name : String
  category : String
  location : String
  description : Option String
  rating : Option String
  coverImage : Option String
  userId : ReqVal
deriving Repr, DecidableEq

/-- The body of POST /api/attachments after the schema checks on every field
other than userId have succeeded. -/
structure AttBody where
  fileName : String
  fileType : String
  fileSize : String
  filePath : String
  establishmentId : Nat
  userId : ReqVal
deriving Repr, DecidableEq

/-- POST /api/establishments: default a falsy userId to 1, validate, insert.
A rating omitted from the insert falls back to the column default 5. Returns
the HTTP status and the resulting store. -/
def postEstablishment (s : Store) (b : EstBody) (newId : Nat) (now : Nat) : Nat × Store :=
  match parseUserId (defaultedUserId b.userId) with
  | none => (400, s)
  | some uid =>
    let row : Establishment :=
      { id := newId, name := b.name, category := b.category, location := b.location,
        description := b.description, rating := some (b.rating.getD "5"),
        coverImage := b.coverImage, userId := uid, createdAt := some now }
    (201, (DB.createEstablishmentRow s row).2)

/-- POST /api/attachments: default a falsy userId to 1, validate, then check
that the referenced establishment exists; if it does not, respond 404 and
leave the store unchanged, otherwise insert the attachment. -/
def postAttachment (s : Store) (b : AttBody) (newId : Nat) (now : Nat) : Nat × Store :=
  match parseUserId (defaultedUserId b.userId) with
  | none => (400, s)
  | some uid =>
    match DB.getEstablishmentRow s b.establishmentId with
    | none => (404, s)
    | some _ =>
      let row : Attachment :=
        { id := newId, fileName := b.fileName, fileType := b.fileType,
          fileSize := b.fileSize, filePath := b.filePath,
          establishmentId := b.establishmentId, userId := uid, uploadDate := some now }
      (201, (DB.createAttachmentRow s row).2)

end Api

/-! ### The canonical client-side shape (shared/schema.ts Firebase types) -/

/-- The canonical client-side establishment value. Optional fields are none
when absent (undefined); createdAt is always a materialized date. -/
structure FirebaseEstablishment where
  id : String
  name : String
  category : String
  location : String
  description : Option String
  rating : String
  coverImage : Option String
  userId : Option String
  createdAt : Nat
deriving Repr, DecidableEq

/-- The canonical client-side attachment value. -/
structure FirebaseAttachment where
  id : String
  fileName : String
  fileType : String
  fileSize : String
  filePath : String
  establishmentId : String
  userId : String
  uploadDate : Nat
deriving Repr, DecidableEq

namespace Adapters

/-! ### The REST adapter (client/src/lib/adapters.ts)

The conversion functions and the fetch wrappers. The outcome of the
underlying HTTP request is passed in as an Except value: ok is a parsed
2xx JSON body, error is the human-readable message thrown by the HTTP
layer. now stands for the Date constructed when a timestamp is absent. -/

/-- JavaScript x || undefined on a nullable string: null and the empty
string collapse to undefined. -/
def orUndefined : Option String → Option String
  | none => none
  | some s => if s = "" then none else some s

/-- JavaScript x || d on a nullable string: null and the empty string fall
back to the default. -/
def orDefault (d : String) : Option String → String
  | none => d
  | some s => if s = "" then d else s

/-- toFirebaseEstablishment: stringify the numeric ids, collapse falsy
optional fields to undefined, default a falsy rating to 5, and materialize
a missing createdAt as the current date. -/
def toFirebaseEstablishment (e : Establishment) (now : Nat) : FirebaseEstablishment :=
  { id := toString e.id
    name := e.name
    category := e.category
    location := e.location
    description := orUndefined e.description
    rating := orDefault "5" e.rating
    coverImage := orUndefined e.coverImage
    userId := some (toString e.userId)
    createdAt := e.createdAt.getD now }

/-- toFirebaseAttachment: stringify the numeric ids and materialize a
missing uploadDate as the current date. -/
def toFirebaseAttachment (a : Attachment) (now : Nat) : FirebaseAttachment :=
  { id := toString a.id
    fileName := a.fileName
    fileType := a.fileType
    fileSize := a.fileSize
    filePath := a.filePath
    establishmentId := toString a.establishmentId
    userId := toString a.userId
    uploadDate := a.uploadDate.getD now }

/-- fetchEstablishments: on success convert every row; a failure is caught,
logged, and an empty array is returned. -/
def fetchEstablishmentsResult (resp : Except String (List Establishment)) (now : Nat) :
    Except String (List FirebaseEstablishment) :=
  match resp with
  | .ok rows => .ok (rows.map (fun e => toFirebaseEstablishment e now))
  | .error _ => .ok []

/-- fetchEstablishment: on success convert the row; a failure is caught,
logged, and null is returned. -/
def fetchEstablishmentResult (resp : Except String Establishment) (now : Nat) :
    Except String (Option FirebaseEstablishment) :=
  match resp with
  | .ok row => .ok (some (toFirebaseEstablishment row now))
  | .error _ => .ok none

/-- The data accepted by createEstablishment, before its required-field
check; a none field is an absent property. -/
structure CreateEstData where
  name : Option String
  category : Option String
  location : Option String
  description : Option String
  rating : Option String
  coverImage : Option String
deriving Repr, DecidableEq

/-- JavaScript truthiness of an optional string property. -/
def truthyStr : Option String → Bool
  | none => false
  | some s => decide (s ≠ "")

/-- createEstablishment: missing required fields throw; otherwise the row
returned by the request is converted, and a request failure is rethrown. -/
def createEstablishmentResult (d : CreateEstData) (resp : Except String Establishment)
    (now : Nat) : Except String FirebaseEstablishment :=
  if ¬ (truthyStr d.name ∧ truthyStr d.category ∧ truthyStr d.location) then
    .error "Missing required fields: name, category, and location are required"
  else
    match resp with
    | .ok row => .ok (toFirebaseEstablishment row now)
    | .error msg => .error msg

/-- updateEstablishment: on success return the success flag of the response
body; a failure is caught, logged, and false is returned. -/
def updateEstablishmentResult (resp : Except String Bool) : Except String Bool :=
  match resp with
  | .ok ok => .ok ok
  | .error _ => .ok false

/-- deleteEstablishment: on success return the success flag of the response
body; a failure is caught, logged, and false is returned. -/
def deleteEstablishmentResult (resp : Except String Bool) : Except String Bool :=
  match resp with
  | .ok ok => .ok ok
  | .error _ => .ok false

/-- fetchAttachments: on success convert every row; a failure is caught,
logged, and an empty array is returned. -/
def fetchAttachmentsResult (resp : Except String (List Attachment)) (now : Nat) :
    Except String (List FirebaseAttachment) :=
  match resp with
  | .ok rows => .ok (rows.map (fun a => toFirebaseAttachment a now))
  | .error _ => .ok []

/-- The data accepted by createAttachment, before its required-field check. -/
structure CreateAttData where
  fileName : Option String
  fileType : Option String
  fileSize : Option String
  filePath : Option String
  establishmentId : Option String
  userId : Option String
deriving Repr, DecidableEq

/-- createAttachment: missing required fields throw; otherwise the row
returned by the request is converted, and a request failure is rethrown. -/
def createAttachmentResult (d : CreateAttData) (resp : Except String Attachment)
    (now : Nat) : Except String FirebaseAttachment :=
  if ¬ (truthyStr d.fileName ∧ truthyStr d.fileType ∧ truthyStr d.fileSize ∧
        truthyStr d.filePath ∧ truthyStr d.establishmentId ∧ truthyStr d.userId) then
    .error "Missing required fields for attachment"
  else
    match resp with
    | .ok row => .ok (toFirebaseAttachment row now)
    | .error msg => .error msg

/-- deleteAttachment: on success return the success flag of the response
body; a failure is caught, logged, and false is returned. -/
def deleteAttachmentResult (resp : Except String Bool) : Except String Bool :=
  match resp with
  | .ok ok => .ok ok
  | .error _ => .ok false

end Adapters

namespace Fs

/-! ### The document conversion (client/src/lib/firestore.ts) -/

/-- A document of the establishments collection as read back from the
store: every field other than the document key may be missing. -/
structure EstablishmentDoc where
  id : String
  name : String
  category : String
  location : String
  description : Option String
  rating : Option String
  coverImage : Option String
  userId : Option String
  createdAt : Option Nat
deriving Repr, DecidableEq

/-- JavaScript x || d for an optional string field of a document. -/
def fieldOr (d : String) : Option String → String
  | none => d
  | some s => if s = "" then d else s

/-- convertDocToEstablishment: the document key becomes the id, a falsy
description or coverImage becomes the empty string, a falsy rating becomes
5, userId is passed through, and a missing createdAt is materialized as the
current date. -/
def convertDocToEstablishment (d : EstablishmentDoc) (now : Nat) : FirebaseEstablishment :=
  { id := d.id
    name := d.name
    category := d.category
    location := d.location
    description := some (fieldOr "" d.description)
    rating := fieldOr "5" d.rating
    coverImage := some (fieldOr "" d.coverImage)
    userId := d.userId
    createdAt := d.createdAt.getD now }

end Fs

/-! ### Helper lemmas on the query engines -/

namespace DB

theorem applySort_perm (sortBy : String) (l : List Establishment) :
    (applySort sortBy l).Perm l := by
  unfold applySort
  split_ifs <;> first
    | exact List.perm_insertionSort _ l
    | exact List.Perm.refl l

theorem mem_applySort {sortBy : String} {l : List Establishment} {e : Establishment} :
    e ∈ applySort sortBy l ↔ e ∈ l :=
  (applySort_perm sortBy l).mem_iff

theorem getEstablishments_eq (rows : List Establishment) (f : Option Filters)
    (sortBy : String) :
    getEstablishments rows f sortBy =
      applySort sortBy (rows.filter (fun e => (conditions f).all (fun c => c e))) := by
  unfold getEstablishments
  by_cases h : (conditions f).isEmpty
  · rw [if_pos h, List.isEmpty_iff.mp h]
    simp
  · rw [if_neg h]

theorem applySort_newest (l : List Establishment) :
    applySort "Newest first" l = List.insertionSort createdDescRel l := by
  unfold applySort
  rw [if_pos (Or.inl rfl)]

theorem applySort_createdAt (l : List Establishment) :
    applySort "createdAt" l = List.insertionSort createdDescRel l := by
  unfold applySort
  rw [if_pos (Or.inr rfl)]

theorem applySort_highest (l : List Establishment) :
    applySort "Highest rated" l = List.insertionSort ratingDescRel l := by
  unfold applySort
  rw [if_neg (by decide), if_pos rfl]

theorem applySort_az (l : List Establishment) :
    applySort "Name A-Z" l = List.insertionSort nameAscRel l := by
  unfold applySort
  rw [if_neg (by decide), if_neg (by decide), if_pos rfl]

theorem applySort_za (l : List Establishment) :
    applySort "Name Z-A" l = List.insertionSort nameDescRel l := by
  unfold applySort
  rw [if_neg (by decide), if_neg (by decide), if_neg (by decide), if_pos rfl]

end DB

namespace Fs

theorem applyOrderBy_perm (sortBy : String) (l : List Establishment) :
    (applyOrderBy sortBy l).Perm l := by
  unfold applyOrderBy
  split_ifs <;> exact List.perm_insertionSort _ l

theorem constraints_eq_conditions (f : Option Filters) :
    constraints f = DB.conditions f := by
  cases f with
  | none => rfl
  | some f =>
    show categoryConstraints f.category ++ locationConstraints f.location ++
        ratingConstraints f.rating =
      DB.categoryConditions f.category ++ DB.locationConditions f.location ++
        DB.ratingConditions f.rating
    have hc : categoryConstraints f.category = DB.categoryConditions f.category := by
      cases f.category <;> rfl
    have hl : locationConstraints f.location = DB.locationConditions f.location := by
      cases f.location <;> rfl
    have hr : ratingConstraints f.rating = DB.ratingConditions f.rating := by
      cases f.rating <;> rfl
    rw [hc, hl, hr]

theorem applyOrderBy_newest (l : List Establishment) :
    applyOrderBy "Newest first" l = List.insertionSort createdDescRel l := by
  unfold applyOrderBy
  rw [if_pos rfl]

theorem applyOrderBy_createdAt (l : List Establishment) :
    applyOrderBy "createdAt" l = List.insertionSort createdDescRel l := by
  unfold applyOrderBy
  rw [if_neg (by decide), if_neg (by decide), if_neg (by decide), if_neg (by decide)]

theorem applyOrderBy_highest (l : List Establishment) :
    applyOrderBy "Highest rated" l = List.insertionSort ratingDescRel l := by
  unfold applyOrderBy
  rw [if_neg (by decide), if_pos rfl]

theorem applyOrderBy_az (l : List Establishment) :
    applyOrderBy "Name A-Z" l = List.insertionSort nameAscRel l := by
  unfold applyOrderBy
  rw [if_neg (by decide), if_neg (by decide), if_pos rfl]

theorem applyOrderBy_za (l : List Establishment) :
    applyOrderBy "Name Z-A" l = List.insertionSort nameDescRel l := by
  unfold applyOrderBy
  rw [if_neg (by decide), if_neg (by decide), if_neg (by decide), if_pos rfl]

end Fs

/-- A permutation between two lists that are both pairwise ordered by r, with
r antisymmetric on the members involved, forces the lists to be equal. -/
theorem eq_of_perm_of_pairwise_on {α : Type} {r : α → α → Prop} {l₁ l₂ : List α}
    (hp : l₁.Perm l₂) (hs₁ : l₁.Pairwise r) (hs₂ : l₂.Pairwise r)
    (ha : ∀ a ∈ l₂, ∀ b ∈ l₂, r a b → r b a → a = b) : l₁ = l₂ := by
  induction hs₁ generalizing l₂ with
  | nil => exact hp.nil_eq
  | @cons a l₁ h₁ _ IH =>
    have ha2 : a ∈ l₂ := hp.subset (List.mem_cons_self a l₁)
    obtain ⟨u₂, v₂, rfl⟩ := List.append_of_mem ha2
    have hp' : l₁.Perm (u₂ ++ v₂) := (List.perm_cons a).1 (hp.trans List.perm_middle)
    have hsub : List.Sublist (u₂ ++ v₂) (u₂ ++ a :: v₂) := by
      apply List.Sublist.append_left
      exact List.sublist_cons_self a v₂
    have hs₂' : (u₂ ++ v₂).Pairwise r := hs₂.sublist hsub
    have ha' : ∀ x ∈ u₂ ++ v₂, ∀ y ∈ u₂ ++ v₂, r x y → r y x → x = y :=
      fun x hx y hy => ha x (hsub.subset hx) y (hsub.subset hy)
    obtain rfl := IH hp' hs₂' ha'
    have hkey : ∀ x ∈ u₂, x = a := by
      intro x hx
      have hxl2 : x ∈ u₂ ++ a :: v₂ := by
        exact List.mem_append_left _ hx
      have hxa : r x a :=
        (List.pairwise_append.1 hs₂).2.2 x hx a (List.mem_cons_self a v₂)
      have hax : r a x := h₁ x (List.mem_append_left v₂ hx)
      exact ha x hxl2 a (by simp) hxa hax
    have hu : u₂ = List.replicate u₂.length a := List.eq_replicate_of_mem hkey
    rw [show a :: (u₂ ++ v₂) = (a :: u₂) ++ v₂ from rfl,
        show u₂ ++ a :: v₂ = (u₂ ++ [a]) ++ v₂ by simp]
    congr 1
    rw [hu]
    rw [show (a :: List.replicate u₂.length a) = List.replicate (u₂.length + 1) a from rfl]
    rw [List.replicate_succ' u₂.length a]

/-- Sorting by name descending yields the reverse of sorting by name
ascending whenever the names are pairwise distinct. -/
theorem insertionSort_nameDesc_eq_reverse {l : List Establishment}
    (hn : (l.map Establishment.name).Nodup) :
    List.insertionSort nameDescRel l = (List.insertionSort nameAscRel l).reverse := by
  have hperm : (List.insertionSort nameDescRel l).Perm
      ((List.insertionSort nameAscRel l).reverse) := by
    refine (List.perm_insertionSort nameDescRel l).trans ?_
    exact ((List.reverse_perm _).trans (List.perm_insertionSort nameAscRel l)).symm
  have hmem : ∀ x ∈ (List.insertionSort nameAscRel l).reverse, x ∈ l := by
    intro x hx
    exact (List.mem_insertionSort nameAscRel).mp ((List.reverse_perm _).mem_iff.mp hx)
  refine eq_of_perm_of_pairwise_on hperm
    (List.sorted_insertionSort nameDescRel l) ?_ ?_
  · exact List.pairwise_reverse.mpr (List.sorted_insertionSort nameAscRel l)
  · intro a haa b hbb hab hba
    exact List.inj_on_of_nodup_map hn (hmem a haa) (hmem b hbb) (strLe_antisymm hba hab)

/-! ### Claim C1 -/

/-- C1: the rating filter maps exactly the three bucket labels to predicates
over the string-typed rating field. For an establishment whose rating is one
of the seven enumerated values, the bucket 5 stars selects exactly rating 5,
the bucket 4+ stars selects exactly ratings 4, 4.5 and 5, the bucket 3+
stars selects exactly ratings 3, 3.5, 4, 4.5 and 5, and any other
rating-filter value (including the sentinel and an absent filter) pushes no
rating condition at all. -/
theorem spec_c1_rating_buckets (e : Establishment) (r : String)
    (hr : e.rating = some r) (hmem : r ∈ RATING_OPTIONS) :
    ((DB.ratingConditions (some "5 stars")).all (fun c => c e) = true ↔ r = "5") ∧
    ((DB.ratingConditions (some "4+ stars")).all (fun c => c e) = true ↔
      r ∈ (["4", "4.5", "5"] : List String)) ∧
    ((DB.ratingConditions (some "3+ stars")).all (fun c => c e) = true ↔
      r ∈ (["3", "3.5", "4", "4.5", "5"] : List String)) ∧
    (∀ v : String, ¬ v = "5 stars" → ¬ v = "4+ stars" → ¬ v = "3+ stars" →
      DB.ratingConditions (some v) = []) ∧
    DB.ratingConditions none = [] := by
  have hm : r = "5" ∨ r = "4.5" ∨ r = "4" ∨ r = "3.5" ∨ r = "3" ∨ r = "2.5" ∨ r = "2" := by
    simpa [RATING_OPTIONS] using hmem
  have h5 : DB.ratingConditions (some "5 stars") = [DB.ratingEq "5"] := by rfl
  have h4 : DB.ratingConditions (some "4+ stars") = [DB.ratingGte "4"] := by rfl
  have h3 : DB.ratingConditions (some "3+ stars") = [DB.ratingGte "3"] := by rfl
  refine ⟨?_, ?_, ?_, ?_, rfl⟩
  · rw [h5]
    simp [DB.ratingEq, hr]
  · rw [h4]
    rcases hm with rfl | rfl | rfl | rfl | rfl | rfl | rfl <;>
      simp [DB.ratingGte, hr] <;> decide
  · rw [h3]
    rcases hm with rfl | rfl | rfl | rfl | rfl | rfl | rfl <;>
      simp [DB.ratingGte, hr] <;> decide
  · intro v h5v h4v h3v
    simp [DB.ratingConditions, h5v, h4v, h3v]

/-- C1 witness: a concrete establishment with rating 4.5 and the bucket
equivalences evaluated there. -/
theorem spec_c1_rating_buckets_witness :
    ((DB.ratingConditions (some "5 stars")).all
        (fun c => c ⟨1, "A", "Restaurant", "Downtown", none, some "4.5", none, 1, some 1⟩) =
        true ↔ ("4.5" : String) = "5") ∧
    ((DB.ratingConditions (some "4+ stars")).all
        (fun c => c ⟨1, "A", "Restaurant", "Downtown", none, some "4.5", none, 1, some 1⟩) =
        true ↔ ("4.5" : String) ∈ (["4", "4.5", "5"] : List String)) ∧
    ((DB.ratingConditions (some "3+ stars")).all
        (fun c => c ⟨1, "A", "Restaurant", "Downtown", none, some "4.5", none, 1, some 1⟩) =
        true ↔ ("4.5" : String) ∈ (["3", "3.5", "4", "4.5", "5"] : List String)) ∧
    (∀ v : String, ¬ v = "5 stars" → ¬ v = "4+ stars" → ¬ v = "3+ stars" →
      DB.ratingConditions (some v) = []) ∧
    DB.ratingConditions none = [] :=
  spec_c1_rating_buckets ⟨1, "A", "Restaurant", "Downtown", none, some "4.5", none, 1, some 1⟩
    "4.5" (by rfl) (by decide)

/-! ### Claim C9 -/

/-- Modelled from the spec: the number denoted by a rating string, scaled by
ten so that it stays integral. This is the numeric reading of the rating
that the claim compares the string order of the store against. -/
def ratingTenths : String → Nat
  | "5" => 50
  | "4.5" => 45
  | "4" => 40
  | "3.5" => 35
  | "3" => 30
  | "2.5" => 25
  | "2" => 20
  | _ => 0

/-- C9: over the seven enumerated rating strings, the lexicographic string
order used by the >= rating conditions and by the rating-descending sort
coincides with the numeric order of the denoted values. -/
theorem spec_c9_string_order_is_numeric (a b : String)
    (ha : a ∈ RATING_OPTIONS) (hb : b ∈ RATING_OPTIONS) :
    strLe a b = true ↔ ratingTenths a ≤ ratingTenths b := by
  have ha' : a = "5" ∨ a = "4.5" ∨ a = "4" ∨ a = "3.5" ∨ a = "3" ∨ a = "2.5" ∨ a = "2" := by
    simpa [RATING_OPTIONS] using ha
  have hb' : b = "5" ∨ b = "4.5" ∨ b = "4" ∨ b = "3.5" ∨ b = "3" ∨ b = "2.5" ∨ b = "2" := by
    simpa [RATING_OPTIONS] using hb
  rcases ha' with rfl | rfl | rfl | rfl | rfl | rfl | rfl <;>
    rcases hb' with rfl | rfl | rfl | rfl | rfl | rfl | rfl <;> decide

/-- C9 witness: the equivalence evaluated at the pair 4 and 4.5. -/
theorem spec_c9_string_order_is_numeric_witness :
    strLe "4" "4.5" = true ↔ ratingTenths "4" ≤ ratingTenths "4.5" :=
  spec_c9_string_order_is_numeric "4" "4.5" (by decide) (by decide)

/-! ### Claim C2 -/

/-- Establishment A of the spec scenario: category Restaurant, rating 5. -/
def scenarioA : Establishment :=
  ⟨1, "A", "Restaurant", "Downtown", none, some "5", none, 1, some 1⟩

/-- Establishment B of the spec scenario: category Retail, rating 3. -/
def scenarioB : Establishment :=
  ⟨2, "B", "Retail", "Uptown", none, some "3", none, 1, some 2⟩

/-- C2: the returned set is the intersection of the per-field match sets; a
filter that is absent or equal to its All sentinel never changes the result;
and on the spec scenario (A Restaurant rating 5, B Retail rating 3) the
filter category All categories with rating 4+ stars returns exactly A. -/
theorem spec_c2_intersection_and_sentinels :
    (∀ (rows : List Establishment) (f : Filters) (s : String) (e : Establishment),
      e ∈ DB.getEstablishments rows (some f) s ↔
        e ∈ rows ∧ (DB.categoryConditions f.category).all (fun c => c e) = true ∧
          (DB.locationConditions f.location).all (fun c => c e) = true ∧
          (DB.ratingConditions f.rating).all (fun c => c e) = true) ∧
    (∀ (rows : List Establishment) (s : String),
      DB.getEstablishments rows none s =
        DB.getEstablishments rows (some ⟨none, none, none⟩) s) ∧
    (∀ (rows : List Establishment) (s : String) (lo ra : Option String),
      DB.getEstablishments rows (some ⟨some "All categories", lo, ra⟩) s =
        DB.getEstablishments rows (some ⟨none, lo, ra⟩) s) ∧
    (∀ (rows : List Establishment) (s : String) (ca ra : Option String),
      DB.getEstablishments rows (some ⟨ca, some "All locations", ra⟩) s =
        DB.getEstablishments rows (some ⟨ca, none, ra⟩) s) ∧
    (∀ (rows : List Establishment) (s : String) (ca lo : Option String),
      DB.getEstablishments rows (some ⟨ca, lo, some "All ratings"⟩) s =
        DB.getEstablishments rows (some ⟨ca, lo, none⟩) s) ∧
    DB.getEstablishments [scenarioA, scenarioB]
      (some ⟨some "All categories", none, some "4+ stars"⟩) "createdAt" = [scenarioA] := by
  refine ⟨?_, ?_, ?_, ?_, ?_, by decide⟩
  · intro rows f s e
    rw [DB.getEstablishments_eq, DB.mem_applySort]
    simp [List.mem_filter, DB.conditions, List.all_append, Bool.and_eq_true, and_assoc]
  · intro rows s
    rw [DB.getEstablishments_eq, DB.getEstablishments_eq]
    have h : DB.conditions none = DB.conditions (some ⟨none, none, none⟩) := by rfl
    rw [h]
  · intro rows s lo ra
    rw [DB.getEstablishments_eq, DB.getEstablishments_eq]
    have h : DB.conditions (some ⟨some "All categories", lo, ra⟩) =
        DB.conditions (some ⟨none, lo, ra⟩) := by
      show DB.categoryConditions (some "All categories") ++ DB.locationConditions lo ++
          DB.ratingConditions ra =
        DB.categoryConditions none ++ DB.locationConditions lo ++ DB.ratingConditions ra
      have hc : DB.categoryConditions (some "All categories") = [] := by rfl
      rw [hc]
      rfl
    rw [h]
  · intro rows s ca ra
    rw [DB.getEstablishments_eq, DB.getEstablishments_eq]
    have h : DB.conditions (some ⟨ca, some "All locations", ra⟩) =
        DB.conditions (some ⟨ca, none, ra⟩) := by
      show DB.categoryConditions ca ++ DB.locationConditions (some "All locations") ++
          DB.ratingConditions ra =
        DB.categoryConditions ca ++ DB.locationConditions none ++ DB.ratingConditions ra
      have hc : DB.locationConditions (some "All locations") = [] := by rfl
      rw [hc]
      rfl
    rw [h]
  · intro rows s ca lo
    rw [DB.getEstablishments_eq, DB.getEstablishments_eq]
    have h : DB.conditions (some ⟨ca, lo, some "All ratings"⟩) =
        DB.conditions (some ⟨ca, lo, none⟩) := by
      show DB.categoryConditions ca ++ DB.locationConditions lo ++
          DB.ratingConditions (some "All ratings") =
        DB.categoryConditions ca ++ DB.locationConditions lo ++ DB.ratingConditions none
      have hc : DB.ratingConditions (some "All ratings") = [] := by rfl
      rw [hc]
      rfl
    rw [h]

/-! ### Claim C3 -/

/-- A sample row with the earlier creation time. -/
def c3RowA : Establishment :=
  ⟨1, "A", "Restaurant", "Downtown", none, some "5", none, 1, some 1⟩

/-- A sample row with the later creation time. -/
def c3RowB : Establishment :=
  ⟨2, "B", "Retail", "Uptown", none, some "4", none, 1, some 2⟩

/-- C3 counterexample: for the unrecognized sort label foo the REST engine
returns the rows in insertion order while the document-store adapter still
orders by creation time descending, so the two paths disagree. -/
theorem spec_c3_counterexample :
    DB.getEstablishments [c3RowA, c3RowB] none "foo" ≠
      Fs.getEstablishments [c3RowA, c3RowB] none "foo" := by decide

/-- C3 amended: the two adapters select the same establishments for every
filter and sort input (the results are permutations of each other), and for
the five recognized sort labels they return identical ordered sequences.
For an unrecognized label they diverge: the REST engine applies no ordering
while the document-store adapter orders by creation time descending. -/
theorem spec_c3_amended (rows : List Establishment) (f : Option Filters) (s : String) :
    (DB.getEstablishments rows f s).Perm (Fs.getEstablishments rows f s) ∧
    (s = "Newest first" ∨ s = "createdAt" ∨ s = "Highest rated" ∨
        s = "Name A-Z" ∨ s = "Name Z-A" →
      DB.getEstablishments rows f s = Fs.getEstablishments rows f s) := by
  have hbase : Fs.getEstablishments rows f s =
      Fs.applyOrderBy s (rows.filter (fun e => (DB.conditions f).all (fun c => c e))) := by
    unfold Fs.getEstablishments
    rw [Fs.constraints_eq_conditions]
  constructor
  · rw [DB.getEstablishments_eq, hbase]
    exact (DB.applySort_perm s _).trans (Fs.applyOrderBy_perm s _).symm
  · intro hs
    rw [DB.getEstablishments_eq, hbase]
    rcases hs with rfl | rfl | rfl | rfl | rfl
    · rw [DB.applySort_newest, Fs.applyOrderBy_newest]
    · rw [DB.applySort_createdAt, Fs.applyOrderBy_createdAt]
    · rw [DB.applySort_highest, Fs.applyOrderBy_highest]
    · rw [DB.applySort_az, Fs.applyOrderBy_az]
    · rw [DB.applySort_za, Fs.applyOrderBy_za]

/-- C3 witness: the amended statement evaluated at a recognized label. -/
theorem spec_c3_amended_witness :
    (DB.getEstablishments [c3RowA, c3RowB] none "Name A-Z").Perm
        (Fs.getEstablishments [c3RowA, c3RowB] none "Name A-Z") ∧
    DB.getEstablishments [c3RowA, c3RowB] none "Name A-Z" =
      Fs.getEstablishments [c3RowA, c3RowB] none "Name A-Z" :=
  ⟨(spec_c3_amended [c3RowA, c3RowB] none "Name A-Z").1,
   (spec_c3_amended [c3RowA, c3RowB] none "Name A-Z").2 (by decide)⟩

/-! ### Claim C8 -/

/-- A sample row named X, inserted first. -/
def c8RowX : Establishment :=
  ⟨1, "X", "Retail", "Uptown", none, some "4", none, 1, some 1⟩

/-- A second sample row also named X. -/
def c8RowY : Establishment :=
  ⟨2, "X", "Retail", "Uptown", none, some "4", none, 1, some 2⟩

/-- A sample row named Y. -/
def c8RowZ : Establishment :=
  ⟨2, "Y", "Retail", "Uptown", none, some "4", none, 1, some 2⟩

/-- C8 counterexample: with two establishments sharing the name X, the
stable name sorts leave both directions in insertion order, so the Z-A
result is not the reverse of the A-Z result. -/
theorem spec_c8_counterexample :
    DB.getEstablishments [c8RowX, c8RowY] none "Name Z-A" ≠
      (DB.getEstablishments [c8RowX, c8RowY] none "Name A-Z").reverse := by decide

/-- C8 amended: for a fixed input set and fixed filters, sorting with Name
A-Z and sorting with Name Z-A produce sequences that are reverses of each
other, provided the establishment names are pairwise distinct. -/
theorem spec_c8_amended (rows : List Establishment) (f : Option Filters)
    (hn : (rows.map Establishment.name).Nodup) :
    DB.getEstablishments rows f "Name Z-A" =
      (DB.getEstablishments rows f "Name A-Z").reverse := by
  rw [DB.getEstablishments_eq, DB.getEstablishments_eq, DB.applySort_za, DB.applySort_az]
  apply insertionSort_nameDesc_eq_reverse
  exact hn.sublist ((List.filter_sublist rows).map Establishment.name)

/-- C8 witness: the amended statement on two rows with distinct names. -/
theorem spec_c8_amended_witness :
    DB.getEstablishments [c8RowX, c8RowZ] none "Name Z-A" =
      (DB.getEstablishments [c8RowX, c8RowZ] none "Name A-Z").reverse :=
  spec_c8_amended [c8RowX, c8RowZ] none (by decide)

/-! ### Claim C6 -/

/-- C6: deleting an establishment removes its attachments and then the
establishment row. The returned flag is true exactly when an establishment
row with that id existed; afterwards no attachment of that establishment
remains, the attachment listing for it is empty, and the id-indexed
attachment operation reports not-found for every attachment that belonged
to it (attachment ids are assumed unique, as they are serial keys). -/
theorem spec_c6_cascade_delete (s : Store) (eid : Nat) (a : Attachment)
    (ha : a ∈ s.attachments) (hae : a.establishmentId = eid)
    (hids : (s.attachments.map Attachment.id).Nodup) :
    ((DB.deleteEstablishment s eid).1 = true ↔ ∃ e ∈ s.establishments, e.id = eid) ∧
    (∀ b ∈ (DB.deleteEstablishment s eid).2.attachments, ¬ b.establishmentId = eid) ∧
    DB.getAttachments (DB.deleteEstablishment s eid).2 eid = [] ∧
    (DB.deleteAttachment (DB.deleteEstablishment s eid).2 a.id).1 = false := by
  refine ⟨?_, ?_, ?_, ?_⟩
  · simp [DB.deleteEstablishment, List.any_eq_true]
  · intro b hb
    simp only [DB.deleteEstablishment, List.mem_filter] at hb
    simpa using hb.2
  · simp only [DB.getAttachments, DB.deleteEstablishment]
    rw [List.filter_eq_nil_iff]
    intro b hb
    simp only [List.mem_filter] at hb
    simpa using hb.2
  · simp only [DB.deleteAttachment, DB.deleteEstablishment]
    rw [List.any_eq_false]
    intro b hb
    simp only [List.mem_filter] at hb
    have hb1 : b ∈ s.attachments := hb.1
    have hb2 : ¬ b.establishmentId = eid := by simpa using hb.2
    intro hbid
    have hba : b = a := by
      apply List.inj_on_of_nodup_map hids hb1 ha
      simpa using hbid
    rw [hba] at hb2
    exact hb2 hae

/-- C6 witness: a store with one establishment (id 1) owning two
attachments; the cascade delete evaluated there. -/
theorem spec_c6_cascade_delete_witness :
    ((DB.deleteEstablishment
        ⟨[⟨1, "A", "Restaurant", "Downtown", none, some "5", none, 1, some 1⟩],
         [⟨1, "f1", "application/pdf", "1 MB", "p1", 1, 1, some 1⟩,
          ⟨2, "f2", "image/png", "2 MB", "p2", 1, 1, some 2⟩]⟩ 1).1 = true ↔
      ∃ e ∈ [(⟨1, "A", "Restaurant", "Downtown", none, some "5", none, 1,
          some 1⟩ : Establishment)], e.id = 1) ∧
    (∀ b ∈ (DB.deleteEstablishment
        ⟨[⟨1, "A", "Restaurant", "Downtown", none, some "5", none, 1, some 1⟩],
         [⟨1, "f1", "application/pdf", "1 MB", "p1", 1, 1, some 1⟩,
          ⟨2, "f2", "image/png", "2 MB", "p2", 1, 1, some 2⟩]⟩ 1).2.attachments,
      ¬ b.establishmentId = 1) ∧
    DB.getAttachments (DB.deleteEstablishment
        ⟨[⟨1, "A", "Restaurant", "Downtown", none, some "5", none, 1, some 1⟩],
         [⟨1, "f1", "application/pdf", "1 MB", "p1", 1, 1, some 1⟩,
          ⟨2, "f2", "image/png", "2 MB", "p2", 1, 1, some 2⟩]⟩ 1).2 1 = [] ∧
    (DB.deleteAttachment (DB.deleteEstablishment
        ⟨[⟨1, "A", "Restaurant", "Downtown", none, some "5", none, 1, some 1⟩],
         [⟨1, "f1", "application/pdf", "1 MB", "p1", 1, 1, some 1⟩,
          ⟨2, "f2", "image/png", "2 MB", "p2", 1, 1, some 2⟩]⟩ 1).2
      (⟨1, "f1", "application/pdf", "1 MB", "p1", 1, 1, some 1⟩ : Attachment).id).1 =
      false :=
  spec_c6_cascade_delete
    ⟨[⟨1, "A", "Restaurant", "Downtown", none, some "5", none, 1, some 1⟩],
     [⟨1, "f1", "application/pdf", "1 MB", "p1", 1, 1, some 1⟩,
      ⟨2, "f2", "image/png", "2 MB", "p2", 1, 1, some 2⟩]⟩ 1
    ⟨1, "f1", "application/pdf", "1 MB", "p1", 1, 1, some 1⟩
    (by decide) (by decide) (by decide)

/-! ### Claim C7 -/

/-- C7: a POST to the attachments route whose body passes validation but
references a non-existent establishment responds 404 and leaves the store
unchanged, so no attachment record is created. -/
theorem spec_c7_attachment_requires_establishment (s : Store) (b : Api.AttBody)
    (nid now : Nat) (uid : Int)
    (hv : Api.parseUserId (Api.defaultedUserId b.userId) = some uid)
    (hne : DB.getEstablishmentRow s b.establishmentId = none) :
    Api.postAttachment s b nid now = (404, s) := by
  simp [Api.postAttachment, hv, hne]

/-- C7 witness: the route evaluated on an empty store. -/
theorem spec_c7_attachment_requires_establishment_witness :
    Api.postAttachment ⟨[], []⟩
      ⟨"f1", "application/pdf", "1 MB", "p1", 7, Api.ReqVal.num 2⟩ 1 0 =
      (404, (⟨[], []⟩ : Store)) :=
  spec_c7_attachment_requires_establishment ⟨[], []⟩
    ⟨"f1", "application/pdf", "1 MB", "p1", 7, Api.ReqVal.num 2⟩ 1 0 2
    (by decide) (by decide)

/-! ### Claim C10 -/

/-- C10: at the two creation routes, any falsy userId in the request body
(0, null, the empty string, or an absent field) is replaced by the sentinel
1 before schema validation; in particular a request explicitly supplying
userId 0 creates a record owned by user 1. -/
theorem spec_c10_falsy_userid_defaults :
    (∀ v : Api.ReqVal, Api.truthy v = false → Api.defaultedUserId v = Api.ReqVal.num 1) ∧
    Api.defaultedUserId (Api.ReqVal.num 0) = Api.ReqVal.num 1 ∧
    Api.defaultedUserId Api.ReqVal.null = Api.ReqVal.num 1 ∧
    Api.defaultedUserId (Api.ReqVal.str "") = Api.ReqVal.num 1 ∧
    Api.defaultedUserId Api.ReqVal.absent = Api.ReqVal.num 1 ∧
    (∀ (s : Store) (b : Api.EstBody) (nid now : Nat), Api.truthy b.userId = false →
      (Api.postEstablishment s b nid now).1 = 201 ∧
      ((Api.postEstablishment s b nid now).2.establishments.getLast?).map
          Establishment.userId = some 1) ∧
    (∀ (s : Store) (b : Api.AttBody) (nid now : Nat) (e : Establishment),
      Api.truthy b.userId = false →
      DB.getEstablishmentRow s b.establishmentId = some e →
      (Api.postAttachment s b nid now).1 = 201 ∧
      ((Api.postAttachment s b nid now).2.attachments.getLast?).map
          Attachment.userId = some 1) := by
  refine ⟨?_, by decide, by decide, by decide, by decide, ?_, ?_⟩
  · intro v hv
    simp [Api.defaultedUserId, hv]
  · intro s b nid now hv
    have hd : Api.defaultedUserId b.userId = Api.ReqVal.num 1 := by
      simp [Api.defaultedUserId, hv]
    constructor
    · simp [Api.postEstablishment, hd, Api.parseUserId]
    · simp [Api.postEstablishment, hd, Api.parseUserId, DB.createEstablishmentRow,
        List.getLast?_concat]
  · intro s b nid now e hv he
    have hd : Api.defaultedUserId b.userId = Api.ReqVal.num 1 := by
      simp [Api.defaultedUserId, hv]
    constructor
    · simp [Api.postAttachment, hd, Api.parseUserId, he]
    · simp [Api.postAttachment, hd, Api.parseUserId, he, DB.createAttachmentRow,
        List.getLast?_concat]

/-- C10 witness: the establishments route evaluated on an empty store with
an explicit userId 0 in the body, together with the closed defaulting
facts. -/
theorem spec_c10_falsy_userid_defaults_witness :
    Api.defaultedUserId (Api.ReqVal.num 0) = Api.ReqVal.num 1 ∧
    (Api.postEstablishment ⟨[], []⟩
        ⟨"A", "Restaurant", "Downtown", none, some "5", none, Api.ReqVal.num 0⟩ 1 0).1 =
      201 ∧
    ((Api.postEstablishment ⟨[], []⟩
        ⟨"A", "Restaurant", "Downtown", none, some "5", none, Api.ReqVal.num 0⟩
        1 0).2.establishments.getLast?).map Establishment.userId = some 1 :=
  ⟨spec_c10_falsy_userid_defaults.2.1,
   (spec_c10_falsy_userid_defaults.2.2.2.2.2.1 ⟨[], []⟩
      ⟨"A", "Restaurant", "Downtown", none, some "5", none, Api.ReqVal.num 0⟩ 1 0
      (by decide)).1,
   (spec_c10_falsy_userid_defaults.2.2.2.2.2.1 ⟨[], []⟩
      ⟨"A", "Restaurant", "Downtown", none, some "5", none, Api.ReqVal.num 0⟩ 1 0
      (by decide)).2⟩

/-! ### Claim C4 -/

/-- A sample relational row whose optional fields are absent. -/
def c4Row : Establishment :=
  ⟨1, "A", "Restaurant", "Downtown", none, some "5", none, 1, some 1⟩

/-- A sample document whose optional fields are absent. -/
def c4Doc : Fs.EstablishmentDoc :=
  ⟨"d1", "A", "Restaurant", "Downtown", none, some "5", none, some "u1", some 1⟩

/-- C4 counterexample: for inputs whose description is absent, the REST
conversion yields an absent description while the document-store conversion
yields the empty string, so the two backends do not produce the same
representation of an absent optional field. -/
theorem spec_c4_counterexample :
    c4Row.description = none ∧ c4Doc.description = none ∧
    (Adapters.toFirebaseEstablishment c4Row 0).description = none ∧
    (Fs.convertDocToEstablishment c4Doc 0).description = some "" ∧
    ¬ (Fs.convertDocToEstablishment c4Doc 0).description = none := by decide

/-- C4 amended: both conversions produce a string identifier and a
materialized date (the stored timestamp when present, the current date
otherwise); the REST conversion represents an absent or empty description
and coverImage as undefined, while the document-store conversion represents
them as the empty string. -/
theorem spec_c4_amended (now t : Nat) (e : Establishment) (d : Fs.EstablishmentDoc) :
    (Adapters.toFirebaseEstablishment e now).id = toString e.id ∧
    (Fs.convertDocToEstablishment d now).id = d.id ∧
    (e.createdAt = some t → (Adapters.toFirebaseEstablishment e now).createdAt = t) ∧
    (e.createdAt = none → (Adapters.toFirebaseEstablishment e now).createdAt = now) ∧
    (d.createdAt = some t → (Fs.convertDocToEstablishment d now).createdAt = t) ∧
    (d.createdAt = none → (Fs.convertDocToEstablishment d now).createdAt = now) ∧
    ((e.description = none ∨ e.description = some "") →
      (Adapters.toFirebaseEstablishment e now).description = none) ∧
    ((e.coverImage = none ∨ e.coverImage = some "") →
      (Adapters.toFirebaseEstablishment e now).coverImage = none) ∧
    ((d.description = none ∨ d.description = some "") →
      (Fs.convertDocToEstablishment d now).description = some "") ∧
    ((d.coverImage = none ∨ d.coverImage = some "") →
      (Fs.convertDocToEstablishment d now).coverImage = some "") := by
  refine ⟨rfl, rfl, ?_, ?_, ?_, ?_, ?_, ?_, ?_, ?_⟩
  · intro h
    simp [Adapters.toFirebaseEstablishment, h]
  · intro h
    simp [Adapters.toFirebaseEstablishment, h]
  · intro h
    simp [Fs.convertDocToEstablishment, h]
  · intro h
    simp [Fs.convertDocToEstablishment, h]
  · rintro (h | h) <;> simp [Adapters.toFirebaseEstablishment, Adapters.orUndefined, h]
  · rintro (h | h) <;> simp [Adapters.toFirebaseEstablishment, Adapters.orUndefined, h]
  · rintro (h | h) <;> simp [Fs.convertDocToEstablishment, Fs.fieldOr, h]
  · rintro (h | h) <;> simp [Fs.convertDocToEstablishment, Fs.fieldOr, h]

/-- C4 witness: the amended statement evaluated on the sample row and
document, discharging the timestamp and absence hypotheses. -/
theorem spec_c4_amended_witness :
    (Adapters.toFirebaseEstablishment c4Row 0).createdAt = 1 ∧
    (Fs.convertDocToEstablishment c4Doc 0).createdAt = 1 ∧
    (Adapters.toFirebaseEstablishment c4Row 0).description = none ∧
    (Adapters.toFirebaseEstablishment c4Row 0).coverImage = none ∧
    (Fs.convertDocToEstablishment c4Doc 0).description = some "" ∧
    (Fs.convertDocToEstablishment c4Doc 0).coverImage = some "" :=
  ⟨(spec_c4_amended 0 1 c4Row c4Doc).2.2.1 (by decide),
   (spec_c4_amended 0 1 c4Row c4Doc).2.2.2.2.1 (by decide),
   (spec_c4_amended 0 1 c4Row c4Doc).2.2.2.2.2.2.1 (Or.inl (by decide)),
   (spec_c4_amended 0 1 c4Row c4Doc).2.2.2.2.2.2.2.1 (Or.inl (by decide)),
   (spec_c4_amended 0 1 c4Row c4Doc).2.2.2.2.2.2.2.2.1 (Or.inl (by decide)),
   (spec_c4_amended 0 1 c4Row c4Doc).2.2.2.2.2.2.2.2.2 (Or.inl (by decide))⟩

/-! ### Claim C5 -/

/-- C5 counterexample: a failing fetchEstablishments call does not reject;
it swallows the failure and resolves with the default empty array. -/
theorem spec_c5_counterexample :
    Adapters.fetchEstablishmentsResult (Except.error "network error") 0 =
      Except.ok [] := by rfl

/-- C5 amended: of the eight adapter calls, only createEstablishment and
createAttachment reject with the underlying message when the request fails;
the other six catch the failure and resolve with a default value (an empty
array, null, or false). -/
theorem spec_c5_amended (msg : String) (now : Nat)
    (d : Adapters.CreateEstData) (da : Adapters.CreateAttData) :
    Adapters.fetchEstablishmentsResult (Except.error msg) now = Except.ok [] ∧
    Adapters.fetchEstablishmentResult (Except.error msg) now = Except.ok none ∧
    Adapters.updateEstablishmentResult (Except.error msg) = Except.ok false ∧
    Adapters.deleteEstablishmentResult (Except.error msg) = Except.ok false ∧
    Adapters.fetchAttachmentsResult (Except.error msg) now = Except.ok [] ∧
    Adapters.deleteAttachmentResult (Except.error msg) = Except.ok false ∧
    ((Adapters.truthyStr d.name = true ∧ Adapters.truthyStr d.category = true ∧
        Adapters.truthyStr d.location = true) →
      Adapters.createEstablishmentResult d (Except.error msg) now = Except.error msg) ∧
    ((Adapters.truthyStr da.fileName = true ∧ Adapters.truthyStr da.fileType = true ∧
        Adapters.truthyStr da.fileSize = true ∧ Adapters.truthyStr da.filePath = true ∧
        Adapters.truthyStr da.establishmentId = true ∧
        Adapters.truthyStr da.userId = true) →
      Adapters.createAttachmentResult da (Except.error msg) now = Except.error msg) := by
  refine ⟨rfl, rfl, rfl, rfl, rfl, rfl, ?_, ?_⟩
  · intro h
    simp [Adapters.createEstablishmentResult, h.1, h.2.1, h.2.2]
  · intro h
    simp [Adapters.createAttachmentResult, h.1, h.2.1, h.2.2.1, h.2.2.2.1,
      h.2.2.2.2.1, h.2.2.2.2.2]

/-- C5 witness: the amended statement evaluated on a concrete message and
fully-populated creation data. -/
theorem spec_c5_amended_witness :
    Adapters.fetchEstablishmentsResult (Except.error "boom") 0 = Except.ok [] ∧
    Adapters.fetchEstablishmentResult (Except.error "boom") 0 = Except.ok none ∧
    Adapters.updateEstablishmentResult (Except.error "boom") = Except.ok false ∧
    Adapters.deleteEstablishmentResult (Except.error "boom") = Except.ok false ∧
    Adapters.fetchAttachmentsResult (Except.error "boom") 0 = Except.ok [] ∧
    Adapters.deleteAttachmentResult (Except.error "boom") = Except.ok false ∧
    Adapters.createEstablishmentResult
        ⟨some "A", some "Restaurant", some "Downtown", none, some "5", none⟩
        (Except.error "boom") 0 = Except.error "boom" ∧
    Adapters.createAttachmentResult
        ⟨some "f1", some "application/pdf", some "1 MB", some "p1", some "1", some "1"⟩
        (Except.error "boom") 0 = Except.error "boom" := by
  have h := spec_c5_amended "boom" 0
    ⟨some "A", some "Restaurant", some "Downtown", none, some "5", none⟩
    ⟨some "f1", some "application/pdf", some "1 MB", some "p1", some "1", some "1"⟩
  exact ⟨h.1, h.2.1, h.2.2.1, h.2.2.2.1, h.2.2.2.2.1, h.2.2.2.2.2.1,
    h.2.2.2.2.2.2.1 (by decide), h.2.2.2.2.2.2.2 (by decide)⟩
